import Mathlib

/-!
Verification of the immutable query-builder library (opensearch-dsl-js).

The development shallow-embeds the library's value model and the operations
the specification talks about.  JavaScript objects are modelled as ordered
association lists (property insertion order is observable through
JSON.stringify, so it is kept); JavaScript numbers are modelled as rationals;
Date values carry their timestamp.  Instance ids come from the module-level
counter in core/Query.ts and are threaded explicitly; timestamps are an
explicit parameter.  Methods that in the source create a new instance are
functions returning the new instance together with the advanced id counter.
-/

namespace OsDsl

/-- A JavaScript value as the library manipulates it: scalars, Date objects,
arrays and plain objects.  Objects keep their property insertion order, which
is exactly what JSON.stringify exposes. -/
inductive JVal where
  | null
  | boolean (b : Bool)
  | num (q : Rat)
  | str (s : String)
  | date (t : Int)
  | arr (xs : List JVal)
  | obj (kvs : List (String × JVal))

/-- Property read on an object's association list (first match). -/
def lookupField : List (String × JVal) → String → Option JVal
  | [], _ => none
  | (k', v') :: rest, k => if k' = k then some v' else lookupField rest k

/-- Property write with JavaScript object-literal semantics: an existing key
keeps its position and gets the new value, a new key is appended at the end. -/
def setField : List (String × JVal) → String → JVal → List (String × JVal)
  | [], k, v => [(k, v)]
  | (k', v') :: rest, k, v =>
      if k' = k then (k', v) :: rest else (k', v') :: setField rest k v

/-- The test the mutators perform on a nested value:
typeof v is an object and v is not null. -/
def isJsObject : JVal → Bool
  | .obj _ => true
  | .arr _ => true
  | .date _ => true
  | _ => false

/-- The own enumerable properties a spread expression copies out of a value:
an object's entries, an array's indexed entries, nothing for a Date. -/
def spreadJs : JVal → List (String × JVal)
  | .obj kvs => kvs
  | .arr xs => (xs.enum.map fun p => (toString p.1, p.2))
  | _ => []

/-- JavaScript truthiness for the modelled values. -/
def jsTruthy : JVal → Bool
  | .null => false
  | .boolean b => b
  | .num q => q != 0
  | .str s => s != ""
  | .date _ => true
  | .arr _ => true
  | .obj _ => true

mutual
/-- Query._deepClone from core/Query.ts: scalars returned as-is, Date values
rebuilt from their timestamp, arrays mapped, objects copied key by key. -/
def deepClone : JVal → JVal
  | .null => .null
  | .boolean b => .boolean b
  | .num q => .num q
  | .str s => .str s
  | .date t => .date t
  | .arr xs => .arr (deepCloneList xs)
  | .obj kvs => .obj (deepCloneFields kvs)

/-- Clone of every element of an array (the Array.isArray branch). -/
def deepCloneList : List JVal → List JVal
  | [] => []
  | x :: xs => deepClone x :: deepCloneList xs

/-- Clone of every own property of an object (the for-in branch). -/
def deepCloneFields : List (String × JVal) → List (String × JVal)
  | [] => []
  | (k, v) :: rest => (k, deepClone v) :: deepCloneFields rest
end

mutual
/-- In the value model a deep clone reproduces the value exactly. -/
theorem deepClone_id : (v : JVal) → deepClone v = v
  | .null => rfl
  | .boolean _ => rfl
  | .num _ => rfl
  | .str _ => rfl
  | .date _ => rfl
  | .arr xs => by rw [deepClone, deepCloneList_id]
  | .obj kvs => by rw [deepClone, deepCloneFields_id]

theorem deepCloneList_id : (xs : List JVal) → deepCloneList xs = xs
  | [] => rfl
  | x :: xs => by rw [deepCloneList, deepClone_id, deepCloneList_id]

theorem deepCloneFields_id : (kvs : List (String × JVal)) → deepCloneFields kvs = kvs
  | [] => rfl
  | (k, v) :: rest => by rw [deepCloneFields, deepClone_id, deepCloneFields_id]
end

/-- Minimal JSON escaping (quote and backslash) of a character list, covering
the characters the library's bodies use. -/
def escapeChars : List Char → String
  | [] => ""
  | c :: cs =>
      (if c = '"' then "\\\"" else if c = '\\' then "\\\\" else String.singleton c)
        ++ escapeChars cs

/-- Minimal JSON string escaping. -/
def escapeJson (s : String) : String := escapeChars s.data

/-- A JSON string literal. -/
def quoteJson (s : String) : String := "\"" ++ escapeJson s ++ "\""

mutual
/-- Model of JSON.stringify on the value model: properties are rendered in
insertion order, numbers by their canonical rational rendering, Date values
by (a rendering of) their timestamp, as JSON.stringify renders Dates by
their ISO timestamp string. -/
def stringify : JVal → String
  | .null => "null"
  | .boolean b => if b then "true" else "false"
  | .num q => toString q
  | .str s => quoteJson s
  | .date t => quoteJson ("date:" ++ toString t)
  | .arr xs => "[" ++ stringifyList xs ++ "]"
  | .obj kvs => "\x7b" ++ stringifyFields kvs ++ "\x7d"

/-- Comma-separated rendering of array elements. -/
def stringifyList : List JVal → String
  | [] => ""
  | x :: xs => stringify x ++ stringifyListRest xs

/-- Continuation of an array rendering: each further element preceded by a
comma. -/
def stringifyListRest : List JVal → String
  | [] => ""
  | x :: xs => "," ++ stringify x ++ stringifyListRest xs

/-- Comma-separated rendering of object members, in insertion order. -/
def stringifyFields : List (String × JVal) → String
  | [] => ""
  | (k, v) :: rest => quoteJson k ++ ":" ++ stringify v ++ stringifyFieldsRest rest

/-- Continuation of an object rendering: each further member preceded by a
comma. -/
def stringifyFieldsRest : List (String × JVal) → String
  | [] => ""
  | (k, v) :: rest => "," ++ quoteJson k ++ ":" ++ stringify v ++ stringifyFieldsRest rest
end

/-- A recorded method invocation (core/types.ts Operation).  The source's
string-valued operation id (timestamp plus random suffix) is modelled by a
natural number supplied by the caller. -/
structure Operation where
  method : String
  args : List JVal
  timestamp : Nat
  opId : Nat

/-- Query metadata (core/types.ts QueryMetadata).  generateId builds the id
string from a strictly increasing module-level counter, so ids are modelled by
the counter value itself; created is the Date.now() timestamp. -/
structure QueryMetadata where
  id : Nat
  operations : List Operation
  created : Nat

/-- Metadata of a freshly constructed instance: generateId increments the
module counter and uses the new value; the operation list starts empty. -/
def freshMeta (c now : Nat) : QueryMetadata × Nat :=
  ({ id := c + 1, operations := [], created := now }, c + 1)

/-- TermQuery instance state: its body is always of the shape
obj [(term, obj [(field, value)])], so the instance is the field name, the
nested value and the metadata. -/
structure TermQuery where
  field : String
  value : JVal
  meta : QueryMetadata

/-- BoolQuery instance state: the association list under the bool key plus
metadata. -/
structure BoolQuery where
  bool : List (String × JVal)
  meta : QueryMetadata

/-- RangeQuery instance state: the field name, the association list of range
options under it, and metadata. -/
structure RangeQuery where
  field : String
  range : List (String × JVal)
  meta : QueryMetadata

/-- NestedQuery instance state: the association list under the nested key. -/
structure NestedQuery where
  nested : List (String × JVal)
  meta : QueryMetadata

/-- DisMaxQuery instance state: the association list under the dis_max key. -/
structure DisMaxQuery where
  disMax : List (String × JVal)
  meta : QueryMetadata

/-- BoostingQuery instance state: the three members of the boosting body. -/
structure BoostingQuery where
  positive : JVal
  negative : JVal
  negative_boost : Rat
  meta : QueryMetadata

/-- A query instance of one of the embedded variants, as passed around where
the source passes the abstract Query type. -/
inductive AnyQuery where
  | term (t : TermQuery)
  | boolq (b : BoolQuery)
  | range (r : RangeQuery)
  | nested (n : NestedQuery)
  | disMax (d : DisMaxQuery)
  | boosting (b : BoostingQuery)

namespace TermQuery

/-- TermQuery.toJSON: a deep clone of the body obj [(term, obj [(field, value)])]. -/
def toJSON (q : TermQuery) : JVal :=
  deepClone (.obj [("term", .obj [(q.field, q.value)])])

/-- TermQuery constructor: stores a deep clone of the body built from field
and value, with fresh metadata. -/
def construct (f : String) (v : JVal) (c now : Nat) : TermQuery × Nat :=
  let (m, c') := freshMeta c now
  ({ field := f, value := deepClone v, meta := m }, c')

/-- TermQuery._getBaseValue: unwraps the expanded object form when a value
property is present, otherwise returns the value unchanged. -/
def getBaseValue (v : JVal) : JVal :=
  match v with
  | .obj kvs => match lookupField kvs "value" with
      | some w => w
      | none => .obj kvs
  | other => other

/-- TermQuery.clone: builds a fresh TermQuery (fresh metadata, the metadata
argument passed by _createNew is ignored by the source) and then overwrites
its body with a deep clone of the new body. -/
def clone (newField : String) (newValue : JVal) (c now : Nat) : TermQuery × Nat :=
  let _base := getBaseValue newValue
  let (m, c') := freshMeta c now
  ({ field := newField, value := deepClone newValue, meta := m }, c')

/-- TermQuery.boost: promotes a scalar value to the expanded object form or
merges boost into the already expanded form, then goes through
_createNew and TermQuery.clone. -/
def boost (q : TermQuery) (v : Rat) (c now : Nat) : TermQuery × Nat :=
  let _op : Operation := { method := "boost", args := [.num v], timestamp := now, opId := c }
  let newValue :=
    if isJsObject q.value then .obj (setField (spreadJs q.value) "boost" (.num v))
    else .obj [("value", q.value), ("boost", .num v)]
  clone q.field newValue c now

/-- TermQuery.caseInsensitive: same merge discipline with the
case_insensitive option. -/
def caseInsensitive (q : TermQuery) (b : Bool) (c now : Nat) : TermQuery × Nat :=
  let _op : Operation := { method := "caseInsensitive", args := [.boolean b], timestamp := now, opId := c }
  let newValue :=
    if isJsObject q.value then .obj (setField (spreadJs q.value) "case_insensitive" (.boolean b))
    else .obj [("value", q.value), ("case_insensitive", .boolean b)]
  clone q.field newValue c now

end TermQuery

namespace RangeQuery

/-- RangeQuery.toJSON: a deep clone of obj [(range, obj [(field, options)])]. -/
def toJSON (q : RangeQuery) : JVal :=
  deepClone (.obj [("range", .obj [(q.field, .obj q.range)])])

/-- RangeQuery constructor: starts with no range options. -/
def construct (f : String) (c now : Nat) : RangeQuery × Nat :=
  let (m, c') := freshMeta c now
  ({ field := f, range := [], meta := m }, c')

/-- RangeQuery.clone: fresh instance (fresh metadata) whose body is then
overwritten with a deep clone of the new body. -/
def clone (newField : String) (newRange : List (String × JVal)) (c now : Nat) :
    RangeQuery × Nat :=
  let (m, c') := freshMeta c now
  ({ field := newField, range := deepCloneFields newRange, meta := m }, c')

/-- RangeQuery.gte: sets the gte bound on a copy of the current options. -/
def gte (q : RangeQuery) (v : JVal) (c now : Nat) : RangeQuery × Nat :=
  let _op : Operation := { method := "gte", args := [v], timestamp := now, opId := c }
  clone q.field (setField q.range "gte" v) c now

/-- RangeQuery.getBounds and hasBounds: a bound is set when the corresponding
property is not undefined, i.e. present in the options object. -/
def hasBounds (q : RangeQuery) : Bool :=
  (lookupField q.range "gte").isSome || (lookupField q.range "gt").isSome ||
  (lookupField q.range "lte").isSome || (lookupField q.range "lt").isSome

end RangeQuery

/-- BoolQuery.toJSON. -/
def BoolQuery.toJSON (q : BoolQuery) : JVal :=
  deepClone (.obj [("bool", .obj q.bool)])

/-- NestedQuery.toJSON. -/
def NestedQuery.toJSON (q : NestedQuery) : JVal :=
  deepClone (.obj [("nested", .obj q.nested)])

/-- DisMaxQuery.toJSON. -/
def DisMaxQuery.toJSON (q : DisMaxQuery) : JVal :=
  deepClone (.obj [("dis_max", .obj q.disMax)])

/-- BoostingQuery.toJSON: the body keeps the constructor's member order
positive, negative, negative_boost. -/
def BoostingQuery.toJSON (q : BoostingQuery) : JVal :=
  deepClone (.obj [("positive", q.positive), ("negative", q.negative),
    ("negative_boost", .num q.negative_boost)])

/-- Dispatch of Query.toJSON over the embedded variants. -/
def AnyQuery.toJSON : AnyQuery → JVal
  | .term t => t.toJSON
  | .boolq b => b.toJSON
  | .range r => r.toJSON
  | .nested n => n.toJSON
  | .disMax d => d.toJSON
  | .boosting b => b.toJSON

/-- Dispatch of Query.metadata over the embedded variants. -/
def AnyQuery.meta : AnyQuery → QueryMetadata
  | .term t => t.meta
  | .boolq b => b.meta
  | .range r => r.meta
  | .nested n => n.meta
  | .disMax d => d.meta
  | .boosting b => b.meta

/-- Query._serializeArgs on one Query argument: the reference record stored in
an operation, carrying the id and a snapshot of the serialized body. -/
def serializeArg (a : AnyQuery) : JVal :=
  .obj [("_type", .str "Query"), ("_id", .num (a.meta.id : Rat)), ("_toJSON", a.toJSON)]

namespace BoolQuery

/-- BoolQuery constructor from a full bool body: the body spread
merges over the default empty bool and is then deep cloned and frozen; the
metadata is fresh. -/
def construct (kvs : List (String × JVal)) (c now : Nat) : BoolQuery × Nat :=
  let (m, c') := freshMeta c now
  ({ bool := deepCloneFields kvs, meta := m }, c')

/-- BoolQuery.clone: new BoolQuery(newBody), so the body is preserved but
the metadata argument from _createNew is ignored and fresh metadata is made. -/
def clone (newBool : List (String × JVal)) (c now : Nat) : BoolQuery × Nat :=
  construct newBool c now

/-- The current must clause array, this._body.bool.must or the empty array. -/
def currentMust (q : BoolQuery) : List JVal :=
  match lookupField q.bool "must" with
  | some (.arr xs) => xs
  | _ => []

/-- BoolQuery.must: appends the serialized snapshots of the given sub-queries
to the must clause list and clones with the updated body. -/
def must (q : BoolQuery) (queries : List AnyQuery) (c now : Nat) : BoolQuery × Nat :=
  let newMust := q.currentMust ++ queries.map AnyQuery.toJSON
  let _op : Operation :=
    { method := "must", args := queries.map serializeArg, timestamp := now, opId := c }
  clone (setField q.bool "must" (.arr newMust)) c now

/-- Emptiness of one clause slot: absent or of zero length. -/
def clauseEmpty (q : BoolQuery) (k : String) : Bool :=
  match lookupField q.bool k with
  | some (.arr xs) => xs.isEmpty
  | _ => true

/-- BoolQuery.isEmpty: all four clause slots are absent or empty. -/
def isEmpty (q : BoolQuery) : Bool :=
  q.clauseEmpty "must" && q.clauseEmpty "should" &&
  q.clauseEmpty "filter" && q.clauseEmpty "must_not"

end BoolQuery

/-- Whether a call that can raise returned normally. -/
def exceptOk {ε α : Type} : Except ε α → Bool
  | .ok _ => true
  | .error _ => false

/-- JavaScript or-with-default as used in the clone methods: the looked-up
property when present and truthy, the fallback otherwise. -/
def jsOr (o : Option JVal) (d : JVal) : JVal :=
  match o with
  | some v => if jsTruthy v then v else d
  | none => d

namespace NestedQuery

/-- NestedQuery constructor: body nested with path and the sub-query's
serialized snapshot, deep cloned, with fresh metadata. -/
def construct (path : String) (sub : AnyQuery) (c now : Nat) : NestedQuery × Nat :=
  let (m, c') := freshMeta c now
  ({ nested := deepCloneFields [("path", .str path), ("query", sub.toJSON)], meta := m }, c')

/-- NestedQuery.clone: rebuilds from the new body's path (falling back to the
old path when falsy) and the OLD query value, through the constructor; every
other member of the new nested body and the metadata argument are dropped. -/
def clone (q : NestedQuery) (newNested : List (String × JVal)) (c now : Nat) :
    NestedQuery × Nat :=
  let path := jsOr (lookupField newNested "path") (jsOr (lookupField q.nested "path") .null)
  let query := jsOr (lookupField q.nested "query") .null
  let (m, c') := freshMeta c now
  ({ nested := deepCloneFields [("path", path), ("query", query)], meta := m }, c')

/-- NestedQuery.boost: records the operation, merges boost into a copy of the
nested value, and hands the merged body to clone. -/
def boost (q : NestedQuery) (v : Rat) (c now : Nat) : NestedQuery × Nat :=
  let _op : Operation := { method := "boost", args := [.num v], timestamp := now, opId := c }
  clone q (setField q.nested "boost" (.num v)) c now

end NestedQuery

namespace DisMaxQuery

/-- DisMaxQuery constructor: body dis_max with the queries' serialized
snapshots, deep cloned, with fresh metadata. -/
def construct (queries : List AnyQuery) (c now : Nat) : DisMaxQuery × Nat :=
  let (m, c') := freshMeta c now
  ({ disMax := deepCloneFields [("queries", .arr (queries.map AnyQuery.toJSON))], meta := m }, c')

/-- The stored queries array, read off the body. -/
def getQueries (q : DisMaxQuery) : List JVal :=
  match lookupField q.disMax "queries" with
  | some (.arr xs) => xs
  | _ => []

/-- DisMaxQuery.clone: rebuilds from the OLD queries array through the
constructor; the new body and the metadata argument are dropped. -/
def clone (q : DisMaxQuery) (_newDisMax : List (String × JVal)) (c now : Nat) :
    DisMaxQuery × Nat :=
  let (m, c') := freshMeta c now
  ({ disMax := deepCloneFields [("queries", .arr (deepCloneList q.getQueries))], meta := m }, c')

/-- DisMaxQuery.query: records the operation, appends the sub-query's
serialized snapshot to a copy of the queries array, and hands the merged body
to clone. -/
def query (q : DisMaxQuery) (sub : AnyQuery) (c now : Nat) : DisMaxQuery × Nat :=
  let _op : Operation := { method := "query", args := [serializeArg sub], timestamp := now, opId := c }
  clone q (setField q.disMax "queries" (.arr (q.getQueries ++ [sub.toJSON]))) c now

/-- DisMaxQuery.tieBreaker: throws a range-validation error outside the unit
interval, before recording the operation and cloning. -/
def tieBreaker (q : DisMaxQuery) (v : Rat) (c now : Nat) :
    Except String (DisMaxQuery × Nat) :=
  if v < 0 ∨ 1 < v then .error "Tie breaker must be between 0 and 1"
  else
    let _op : Operation := { method := "tieBreaker", args := [.num v], timestamp := now, opId := c }
    .ok (clone q (setField q.disMax "tie_breaker" (.num v)) c now)

end DisMaxQuery

namespace BoostingQuery

/-- BoostingQuery constructor: stores the two snapshots and the ratio with no
range validation. -/
def construct (positive negative : AnyQuery) (negativeBoost : Rat) (c now : Nat) :
    BoostingQuery × Nat :=
  let (m, c') := freshMeta c now
  ({ positive := deepClone positive.toJSON, negative := deepClone negative.toJSON,
     negative_boost := negativeBoost, meta := m }, c')

/-- BoostingQuery.clone: rebuilds from the OLD positive and negative
snapshots, the ratio coming from the new body through a falsy-or fallback
(so a zero ratio falls back to the old one); fresh metadata. -/
def clone (q : BoostingQuery) (newNegBoost : Rat) (c now : Nat) : BoostingQuery × Nat :=
  let nb := if newNegBoost != 0 then newNegBoost else q.negative_boost
  let (m, c') := freshMeta c now
  ({ positive := deepClone q.positive, negative := deepClone q.negative,
     negative_boost := nb, meta := m }, c')

/-- BoostingQuery.negativeBoost: throws a range-validation error outside the
unit interval, else records the operation and clones with the new ratio. -/
def negativeBoost (q : BoostingQuery) (v : Rat) (c now : Nat) :
    Except String (BoostingQuery × Nat) :=
  if v < 0 ∨ 1 < v then .error "Negative boost must be between 0 and 1"
  else
    let _op : Operation := { method := "negativeBoost", args := [.num v], timestamp := now, opId := c }
    .ok (clone q v c now)

end BoostingQuery

/-- Query.when: applies fn when the condition is truthy, else returns the
receiver itself. -/
def Query.when {α : Type} (q : α) (condition : JVal) (fn : α → α) : α :=
  if jsTruthy condition then fn q else q

/-- Query.unless: applies fn when the condition is falsy, else returns the
receiver itself. -/
def Query.unless {α : Type} (q : α) (condition : JVal) (fn : α → α) : α :=
  if !jsTruthy condition then fn q else q

/-- Query.equals: JSON.stringify of the two serialized bodies compared as
strings. -/
def Query.equals (a b : AnyQuery) : Bool :=
  stringify a.toJSON == stringify b.toJSON

namespace Q

/-- Q.exists from the small factory module src/Q.ts: not a dedicated exists
query, but new RangeQuery(field).gte(null). -/
def existsQuery (f : String) (c now : Nat) : RangeQuery × Nat :=
  let (r, c') := RangeQuery.construct f c now
  r.gte .null c' now

/-- Q.validate: collects the structural warnings for the variants it
recognizes; serialization of the embedded values never throws, and the
produced JSON is always an object, so only the two variant-specific checks
can contribute errors. -/
def validate (q : AnyQuery) : List String :=
  (match q with
   | .boolq b => if b.isEmpty then ["Bool query has no clauses"] else []
   | _ => []) ++
  (match q with
   | .range r => if !r.hasBounds then ["Range query has no bounds set"] else []
   | _ => [])

end Q

/-- Model of a JavaScript property assignment along a path into the stored
body, after Object.freeze was applied to the top-level object only (the
ECMAScript freeze does not recurse).  Writing a property of the frozen
top-level object fails or is silently ignored, so it is a no-op; writing
deeper first reads the nested object (reads are always allowed) and then
assigns on that nested object, which is not frozen, so the assignment takes
effect. -/
def jsWrite (frozen : Bool) (o : JVal) : List String → JVal → JVal
  | [], _ => o
  | [k], v =>
      if frozen then o
      else match o with
        | .obj kvs => .obj (setField kvs k v)
        | other => other
  | k :: k' :: rest, v =>
      match o with
      | .obj kvs =>
          match lookupField kvs k with
          | some child => .obj (setField kvs k (jsWrite false child (k' :: rest) v))
          | none => o
      | other => other

mutual
/-- Modelled from the spec: deep identity of serialized bodies as
transmittable values, with arrays compared order-sensitively and mappings
compared by key set and values (insertion order irrelevant). -/
def specDeepEq : JVal → JVal → Bool
  | .null, .null => true
  | .boolean a, .boolean b => a == b
  | .num a, .num b => a == b
  | .str a, .str b => a == b
  | .date a, .date b => a == b
  | .arr xs, .arr ys => specDeepEqList xs ys
  | .obj kvs, .obj kvs' =>
      specDeepEqFields kvs kvs' && kvs'.all (fun p => (lookupField kvs p.1).isSome)
  | _, _ => false

/-- Order-sensitive elementwise comparison of arrays. -/
def specDeepEqList : List JVal → List JVal → Bool
  | [], [] => true
  | x :: xs, y :: ys => specDeepEq x y && specDeepEqList xs ys
  | _, _ => false

/-- Every key of the first mapping is present in the second with a deeply
identical value. -/
def specDeepEqFields : List (String × JVal) → List (String × JVal) → Bool
  | [], _ => true
  | (k, v) :: rest, other =>
      (match lookupField other k with
       | some w => specDeepEq v w
       | none => false) && specDeepEqFields rest other
end

/-- The process state the source keeps outside any instance: the module-level
id counter plus the set of instances created so far, recorded by id.  Every
operation only ever allocates new instances; existing entries are never
rewritten, mirroring that the source never assigns into an existing
(top-level-frozen) instance. -/
structure World where
  nextId : Nat
  heap : List (Nat × TermQuery)

/-- Lookup of an instance by id. -/
def heapLookup : List (Nat × TermQuery) → Nat → Option TermQuery
  | [], _ => none
  | (i, q) :: rest, j => if i = j then some q else heapLookup rest j

/-- World well-formedness: every recorded instance is keyed by its own id and
ids never exceed the module counter (generateId uses the pre-incremented
counter, so this holds for every reachable world). -/
def World.wf (w : World) : Prop :=
  ∀ p ∈ w.heap, p.2.meta.id = p.1 ∧ p.1 ≤ w.nextId

/-- TermQuery.boost as a step on the process state: the receiver is looked
up, the new instance is built with a fresh id from the module counter and
recorded; nothing else in the state changes. -/
def termBoostW (i : Nat) (v : Rat) (now : Nat) (w : World) : Option (Nat × World) :=
  match heapLookup w.heap i with
  | none => none
  | some q =>
      let (q', c') := q.boost v w.nextId now
      some (q'.meta.id, { nextId := c', heap := (q'.meta.id, q') :: w.heap })

/-- Reading back the key just written returns the written value. -/
theorem lookupField_setField_self (l : List (String × JVal)) (k : String) (v : JVal) :
    lookupField (setField l k v) k = some v := by
  induction l with
  | nil => simp [setField, lookupField]
  | cons p rest ih =>
      obtain ⟨k', v'⟩ := p
      by_cases h : k' = k
      · simp [setField, lookupField, h]
      · simp [setField, lookupField, h, ih]

/-- A successful heap lookup comes from a recorded entry. -/
theorem heapLookup_mem {l : List (Nat × TermQuery)} {j : Nat} {q : TermQuery}
    (h : heapLookup l j = some q) : (j, q) ∈ l := by
  induction l with
  | nil => simp [heapLookup] at h
  | cons p rest ih =>
      obtain ⟨i, q'⟩ := p
      by_cases hij : i = j
      · subst hij
        simp [heapLookup] at h
        simp [h]
      · simp [heapLookup, hij] at h
        exact List.mem_cons_of_mem _ (ih h)

/-- The new instance a TermQuery mutator returns carries the freshly
generated metadata. -/
theorem TermQuery.boost_meta (q : TermQuery) (v : Rat) (c now : Nat) :
    ((q.boost v c now).1.meta = { id := c + 1, operations := [], created := now })
      ∧ (q.boost v c now).2 = c + 1 :=
  ⟨rfl, rfl⟩

/-- Claim C1: the merged body handed to the clone primitive should be carried
into the new instance; evaluating the embedded code shows NestedQuery.boost
loses the boost member (the clone rebuilds from path and the old query only)
and DisMaxQuery.query loses the appended sub-query (the clone rebuilds from
the old queries array), so the claim fails on the code. -/
theorem nested_and_dismax_clone_drop_merged_options :
    lookupField ((NestedQuery.boost
        (NestedQuery.construct "user"
          (.term (TermQuery.construct "status" (.str "active") 0 0).1) 1 0).1
        2 2 0).1).nested "boost" = none ∧
    DisMaxQuery.getQueries
        ((DisMaxQuery.construct [] 3 0).1.query
          (.term (TermQuery.construct "status" (.str "active") 0 0).1) 4 0).1 = [] :=
  ⟨rfl, rfl⟩

/-- Claim C2: a mutator's result should carry the parent's operation log plus
the newly recorded operation; evaluating the embedded code shows the log of
the returned instance is empty, because every variant clone ignores the
metadata computed by Query._createNew and builds fresh metadata. -/
theorem mutated_instance_has_empty_operation_log :
    ((TermQuery.boost (TermQuery.construct "price" (.num 100) 0 0).1 2 1 7).1).meta.operations
      = [] :=
  rfl

/-- Claim C3: a mutator returns a distinct instance with a fresh id never
equal to the receiver's, and the receiver recorded in the process state is
left exactly as it was. -/
theorem mutator_allocates_fresh_id_and_preserves_receiver
    (w : World) (i : Nat) (q : TermQuery) (v : Rat) (now r : Nat) (w' : World)
    (hwf : w.wf) (hq : heapLookup w.heap i = some q)
    (hstep : termBoostW i v now w = some (r, w')) :
    r ≠ i ∧ heapLookup w'.heap i = some q ∧
      heapLookup w'.heap r = some (q.boost v w.nextId now).1 := by
  unfold termBoostW at hstep
  rw [hq] at hstep
  simp only [TermQuery.boost, TermQuery.clone, freshMeta,
    Option.some.injEq, Prod.mk.injEq] at hstep
  obtain ⟨hr, hw⟩ := hstep
  have hile : i ≤ w.nextId := (hwf _ (heapLookup_mem hq)).2
  have hrval : r = w.nextId + 1 := hr.symm
  have hne : r ≠ i := by omega
  subst hw
  refine ⟨hne, ?_, ?_⟩
  · simpa [heapLookup, TermQuery.boost, TermQuery.clone, freshMeta,
      show ¬(w.nextId + 1 = i) by omega] using hq
  · simp [heapLookup, TermQuery.boost, TermQuery.clone, freshMeta, hrval]

/-- Witness for C3 on a concrete one-instance world. -/
theorem mutator_allocates_fresh_id_and_preserves_receiver_witness :
    (2 : Nat) ≠ 1 ∧
    heapLookup ((2, ((TermQuery.construct "f" (.str "v") 0 0).1.boost 2 1 5).1)
        :: [(1, (TermQuery.construct "f" (.str "v") 0 0).1)]) 1
      = some (TermQuery.construct "f" (.str "v") 0 0).1 ∧
    heapLookup ((2, ((TermQuery.construct "f" (.str "v") 0 0).1.boost 2 1 5).1)
        :: [(1, (TermQuery.construct "f" (.str "v") 0 0).1)]) 2
      = some ((TermQuery.construct "f" (.str "v") 0 0).1.boost 2 1 5).1 :=
  mutator_allocates_fresh_id_and_preserves_receiver
    ⟨1, [(1, (TermQuery.construct "f" (.str "v") 0 0).1)]⟩ 1
    (TermQuery.construct "f" (.str "v") 0 0).1 2 5 2
    ⟨2, (2, ((TermQuery.construct "f" (.str "v") 0 0).1.boost 2 1 5).1)
        :: [(1, (TermQuery.construct "f" (.str "v") 0 0).1)]⟩
    (by intro p hp
        simp only [List.mem_singleton] at hp
        subst hp
        exact ⟨rfl, le_refl 1⟩)
    rfl rfl

/-- Claim C4, counterexample: the freeze applied by the constructor is the
top-level Object.freeze only, so a write into a nested mapping of the stored
body takes effect, refuting that writes into any part fail or are no-ops. -/
theorem nested_write_into_frozen_body_succeeds :
    jsWrite true (deepClone (.obj [("term", .obj [("status", .str "active")])]))
        ["term", "status"] (.str "changed")
      ≠ deepClone (.obj [("term", .obj [("status", .str "active")])]) := by
  intro h
  exact absurd (congrArg stringify h) (by decide)

/-- Claim C4, amended: the constructor stores a recursive deep clone (dates by
timestamp), and the freeze protects exactly the top level: a write to a
top-level property of the frozen stored body is a no-op. -/
theorem constructor_deep_clones_and_top_level_freeze_blocks_writes :
    (∀ v : JVal, deepClone v = v) ∧
    (∀ (o : JVal) (k : String) (v : JVal), jsWrite true o [k] v = o) :=
  ⟨deepClone_id, fun _ _ _ => rfl⟩

/-- Claim C5, counterexample: constructing a boosting query with ratio 3/2
does not raise; an instance is returned and it stores 3/2 as the ratio. -/
theorem boosting_construction_accepts_out_of_range_value :
    ((BoostingQuery.construct
        (.term (TermQuery.construct "a" (.str "p") 0 0).1)
        (.term (TermQuery.construct "b" (.str "n") 1 0).1)
        (3 / 2) 2 0).1).negative_boost = 3 / 2 :=
  rfl

/-- Claim C5, amended: the [0,1] range check is enforced by the mutators
negativeBoost and tieBreaker, which fail exactly outside the interval and
return no instance; the constructor performs no validation and stores any
ratio it is given. -/
theorem range_validation_happens_at_mutators :
    (∀ (q : BoostingQuery) (v : Rat) (c now : Nat),
        exceptOk (q.negativeBoost v c now) = true ↔ 0 ≤ v ∧ v ≤ 1) ∧
    (∀ (q : DisMaxQuery) (v : Rat) (c now : Nat),
        exceptOk (q.tieBreaker v c now) = true ↔ 0 ≤ v ∧ v ≤ 1) ∧
    (∀ (p n : AnyQuery) (nb : Rat) (c now : Nat),
        ((BoostingQuery.construct p n nb c now).1).negative_boost = nb) := by
  refine ⟨fun q v c now => ?_, fun q v c now => ?_, fun p n nb c now => rfl⟩
  · unfold BoostingQuery.negativeBoost
    split
    · rename_i h
      constructor
      · intro hcontra; exact absurd hcontra (by simp [exceptOk])
      · intro hrange
        exfalso
        rcases h with h | h
        · linarith [hrange.1]
        · linarith [hrange.2]
    · rename_i h
      push_neg at h
      exact ⟨fun _ => ⟨h.1, h.2⟩, fun _ => rfl⟩
  · unfold DisMaxQuery.tieBreaker
    split
    · rename_i h
      constructor
      · intro hcontra; exact absurd hcontra (by simp [exceptOk])
      · intro hrange
        exfalso
        rcases h with h | h
        · linarith [hrange.1]
        · linarith [hrange.2]
    · rename_i h
      push_neg at h
      exact ⟨fun _ => ⟨h.1, h.2⟩, fun _ => rfl⟩

/-- Claim C6: a term query built with a scalar value serializes the field in
expanded object form after one boost, and a second mutator merges into that
object keeping both the original value and the boost. -/
theorem term_shorthand_promotion_preserves_options
    (f : String) (v0 : JVal) (n : Rat) (b : Bool)
    (c0 now0 c1 now1 c2 now2 : Nat) (hv : isJsObject v0 = false) :
    TermQuery.toJSON (TermQuery.boost (TermQuery.construct f v0 c0 now0).1 n c1 now1).1
      = .obj [("term", .obj [(f, .obj [("value", v0), ("boost", .num n)])])] ∧
    TermQuery.toJSON
        (TermQuery.caseInsensitive
          (TermQuery.boost (TermQuery.construct f v0 c0 now0).1 n c1 now1).1 b c2 now2).1
      = .obj [("term", .obj [(f,
          .obj [("value", v0), ("boost", .num n), ("case_insensitive", .boolean b)])])] := by
  constructor
  · simp [TermQuery.construct, TermQuery.boost, TermQuery.clone, TermQuery.toJSON,
      freshMeta, deepClone_id, hv]
  · simp only [TermQuery.construct, TermQuery.boost, TermQuery.caseInsensitive,
      TermQuery.clone, TermQuery.toJSON, freshMeta, deepClone_id, hv,
      Bool.false_eq_true, if_false]
    simp [isJsObject, spreadJs, setField]

/-- Witness for C6 at a concrete scalar-built term query. -/
theorem term_shorthand_promotion_preserves_options_witness :
    TermQuery.toJSON
        (TermQuery.boost (TermQuery.construct "status" (.str "active") 0 0).1 2 1 0).1
      = .obj [("term", .obj [("status",
          .obj [("value", .str "active"), ("boost", .num 2)])])] ∧
    TermQuery.toJSON
        (TermQuery.caseInsensitive
          (TermQuery.boost (TermQuery.construct "status" (.str "active") 0 0).1 2 1 0).1
          true 2 0).1
      = .obj [("term", .obj [("status",
          .obj [("value", .str "active"), ("boost", .num 2),
            ("case_insensitive", .boolean true)])])] :=
  term_shorthand_promotion_preserves_options "status" (.str "active") 2 true 0 0 1 0 2 0 rfl

/-- Claim C7, counterexample: two term queries whose serialized bodies are the
same mapping up to key insertion order (value, boost, case_insensitive versus
value, case_insensitive, boost) are deeply identical by the claim's mapping
comparison, yet Query.equals, which compares JSON.stringify output, reports
them unequal. -/
theorem equals_distinguishes_key_insertion_order :
    specDeepEq
        (AnyQuery.toJSON (.term (TermQuery.caseInsensitive
          (TermQuery.boost (TermQuery.construct "f" (.str "v") 0 0).1 2 1 0).1 true 2 0).1))
        (AnyQuery.toJSON (.term (TermQuery.boost
          (TermQuery.caseInsensitive (TermQuery.construct "f" (.str "v") 3 0).1 true 4 0).1
          2 5 0).1)) = true ∧
    Query.equals
        (.term (TermQuery.caseInsensitive
          (TermQuery.boost (TermQuery.construct "f" (.str "v") 0 0).1 2 1 0).1 true 2 0).1)
        (.term (TermQuery.boost
          (TermQuery.caseInsensitive (TermQuery.construct "f" (.str "v") 3 0).1 true 4 0).1
          2 5 0).1) = false :=
  ⟨rfl, rfl⟩

/-- Claim C7, amended: Query.equals compares the stringified serialized
bodies, so it is insensitive to metadata but order-sensitive for mapping key
insertion order as well as arrays; two instances built by the same
construction call are equal while carrying distinct fresh ids. -/
theorem equals_ignores_metadata_and_construction_gives_fresh_ids
    (f : String) (v : JVal) (c0 n0 n1 : Nat) :
    Query.equals (.term (TermQuery.construct f v c0 n0).1)
        (.term (TermQuery.construct f v (TermQuery.construct f v c0 n0).2 n1).1) = true ∧
    ((TermQuery.construct f v c0 n0).1).meta.id
      ≠ ((TermQuery.construct f v (TermQuery.construct f v c0 n0).2 n1).1).meta.id := by
  constructor
  · show (stringify (TermQuery.toJSON _) == stringify (TermQuery.toJSON _)) = true
    have hsame : TermQuery.toJSON (TermQuery.construct f v c0 n0).1
        = TermQuery.toJSON (TermQuery.construct f v (TermQuery.construct f v c0 n0).2 n1).1 :=
      rfl
    rw [hsame]
    exact beq_self_eq_true _
  · show c0 + 1 ≠ c0 + 1 + 1
    omega

/-- Claim C8: when and unless return the receiver itself on an inactive
condition and the function's result on an active one, with JavaScript
truthiness deciding activity. -/
theorem when_unless_conditional_identity
    (q : AnyQuery) (c : JVal) (f : AnyQuery → AnyQuery) :
    (jsTruthy c = false → Query.when q c f = q ∧ Query.unless q c f = f q) ∧
    (jsTruthy c = true → Query.when q c f = f q ∧ Query.unless q c f = q) := by
  constructor <;> intro h <;> simp [Query.when, Query.unless, h]

/-- Witness for C8 at a falsy condition. -/
theorem when_unless_conditional_identity_witness :
    Query.when (AnyQuery.term (TermQuery.construct "f" (.str "v") 0 0).1) (.boolean false) id
      = AnyQuery.term (TermQuery.construct "f" (.str "v") 0 0).1 ∧
    Query.unless (AnyQuery.term (TermQuery.construct "f" (.str "v") 0 0).1) (.boolean false) id
      = id (AnyQuery.term (TermQuery.construct "f" (.str "v") 0 0).1) :=
  (when_unless_conditional_identity (AnyQuery.term (TermQuery.construct "f" (.str "v") 0 0).1)
    (.boolean false) id).1 rfl

/-- Claim C9: a bool compound embeds the sub-query's serialized snapshot by
value: the must list of each compound ends with the snapshot of the shared
sub-query, while a later boost on the shared sub-query produces a new
expanded instance whose serialization differs from the embedded copies. -/
theorem embedded_subquery_is_value_snapshot
    (b1 b2 : BoolQuery) (s : TermQuery) (v : Rat)
    (c1 n1 c2 n2 c3 n3 : Nat) (hs : isJsObject s.value = false) :
    lookupField ((b1.must [.term s] c1 n1).1).bool "must"
        = some (.arr (b1.currentMust ++ [s.toJSON])) ∧
    lookupField ((b2.must [.term s] c2 n2).1).bool "must"
        = some (.arr (b2.currentMust ++ [s.toJSON])) ∧
    ((s.boost v c3 n3).1).value = .obj [("value", s.value), ("boost", .num v)] ∧
    TermQuery.toJSON (s.boost v c3 n3).1 ≠ s.toJSON := by
  refine ⟨?_, ?_, ?_, ?_⟩
  · simp [BoolQuery.must, BoolQuery.clone, BoolQuery.construct, freshMeta,
      deepCloneFields_id, lookupField_setField_self, AnyQuery.toJSON]
  · simp [BoolQuery.must, BoolQuery.clone, BoolQuery.construct, freshMeta,
      deepCloneFields_id, lookupField_setField_self, AnyQuery.toJSON]
  · simp [TermQuery.boost, TermQuery.clone, freshMeta, deepClone_id, hs]
  · intro h
    simp [TermQuery.boost, TermQuery.clone, TermQuery.toJSON, freshMeta,
      deepClone_id, hs] at h
    rw [← h] at hs
    simp [isJsObject] at hs

/-- Witness for C9 with a concrete shared scalar term query. -/
theorem embedded_subquery_is_value_snapshot_witness :
    lookupField (((BoolQuery.construct [] 1 0).1.must
        [AnyQuery.term (TermQuery.construct "active" (.boolean true) 0 0).1] 2 0).1).bool "must"
        = some (.arr ((BoolQuery.construct [] 1 0).1.currentMust
            ++ [(TermQuery.construct "active" (.boolean true) 0 0).1.toJSON])) ∧
    lookupField (((BoolQuery.construct [] 3 0).1.must
        [AnyQuery.term (TermQuery.construct "active" (.boolean true) 0 0).1] 4 0).1).bool "must"
        = some (.arr ((BoolQuery.construct [] 3 0).1.currentMust
            ++ [(TermQuery.construct "active" (.boolean true) 0 0).1.toJSON])) ∧
    (((TermQuery.construct "active" (.boolean true) 0 0).1.boost 2 5 0).1).value
        = .obj [("value", .boolean true), ("boost", .num 2)] ∧
    TermQuery.toJSON ((TermQuery.construct "active" (.boolean true) 0 0).1.boost 2 5 0).1
      ≠ TermQuery.toJSON (TermQuery.construct "active" (.boolean true) 0 0).1 :=
  embedded_subquery_is_value_snapshot
    (BoolQuery.construct [] 1 0).1 (BoolQuery.construct [] 3 0).1
    (TermQuery.construct "active" (.boolean true) 0 0).1 2 2 0 4 0 5 0 rfl

/-- Claim C10: the small factory's exists returns a RangeQuery with body
range.field.gte set to null; hasBounds tests presence (not-undefined), so it
reports true, and validate raises no bounds warning. -/
theorem exists_factory_is_range_gte_null (f : String) (c now : Nat) :
    RangeQuery.toJSON (Q.existsQuery f c now).1
      = .obj [("range", .obj [(f, .obj [("gte", .null)])])] ∧
    RangeQuery.hasBounds (Q.existsQuery f c now).1 = true ∧
    Q.validate (.range (Q.existsQuery f c now).1) = [] := by
  refine ⟨?_, rfl, rfl⟩
  simp [Q.existsQuery, RangeQuery.construct, RangeQuery.gte, RangeQuery.clone,
    RangeQuery.toJSON, freshMeta, setField, deepClone_id, deepCloneFields_id]

end OsDsl
